import Mathlib

/-!
# Verification of the Chatbot REST backend

Shallow embedding of the chat backend found in `server.js` (which holds two
variants of the server, called A and B below) and of the minimal variant in the
unnamed source file (called C below).  Database tables are embedded as lists of
rows, the serial id generators as counters, and `CURRENT_TIMESTAMP` as a
strictly increasing logical clock.  Each HTTP handler becomes a pure function
from the request data (and, where relevant, the prior database state and the
outcome of the external completion provider) to a response record and the new
database state.  The completion provider and bcrypt/jwt are out-of-scope
external collaborators and are modelled as opaque-but-deterministic data.
-/

/-- A row of the `users` table (`id SERIAL, name, pin, created_at`). -/
structure UserRow where
  id : Nat
  name : String
  pin : String
  created_at : Nat
  deriving Repr, DecidableEq

/-- A row of the `chats` table (`id SERIAL, user_id REFERENCES users, title, created_at`). -/
structure ChatRow where
  id : Nat
  user_id : Nat
  title : String
  created_at : Nat
  deriving Repr, DecidableEq

/-- A row of the `messages` table
(`id SERIAL, chat_id REFERENCES chats ON DELETE CASCADE, role, content, created_at`). -/
structure MessageRow where
  id : Nat
  chat_id : Nat
  role : String
  content : String
  created_at : Nat
  deriving Repr, DecidableEq

/-- The database state: the three tables, one serial counter per table and a
logical clock standing for `CURRENT_TIMESTAMP` (bumped on every insert, so
creation timestamps are strictly increasing). -/
structure DB where
  users : List UserRow
  chats : List ChatRow
  messages : List MessageRow
  nextUserId : Nat
  nextChatId : Nat
  nextMsgId : Nat
  clock : Nat
  deriving Repr, DecidableEq

/-- `INSERT INTO users (name, pin) VALUES ($1, $2) RETURNING id`. -/
def insertUser (db : DB) (name pin : String) : DB × Nat :=
  ({ db with users := db.users ++ [⟨db.nextUserId, name, pin, db.clock⟩],
             nextUserId := db.nextUserId + 1, clock := db.clock + 1 }, db.nextUserId)

/-- `INSERT INTO chats (user_id, title) VALUES ($1, $2) RETURNING id`. -/
def insertChat (db : DB) (uid : Nat) (title : String) : DB × Nat :=
  ({ db with chats := db.chats ++ [⟨db.nextChatId, uid, title, db.clock⟩],
             nextChatId := db.nextChatId + 1, clock := db.clock + 1 }, db.nextChatId)

/-- `INSERT INTO messages (chat_id, role, content) VALUES ($1, $2, $3)`. -/
def insertMessage (db : DB) (cid : Nat) (role content : String) : DB :=
  { db with messages := db.messages ++ [⟨db.nextMsgId, cid, role, content, db.clock⟩],
            nextMsgId := db.nextMsgId + 1, clock := db.clock + 1 }

/-- Ordering used for `ORDER BY created_at ASC` on messages. -/
def msgOlderFirst (a b : MessageRow) : Prop := a.created_at ≤ b.created_at

/-- Ordering used for `ORDER BY created_at DESC` on chats. -/
def chatNewerFirst (a b : ChatRow) : Prop := b.created_at ≤ a.created_at

instance : DecidableRel msgOlderFirst := fun a b => Nat.decLe a.created_at b.created_at

instance : DecidableRel chatNewerFirst := fun a b => Nat.decLe b.created_at a.created_at

instance : IsTotal MessageRow msgOlderFirst :=
  ⟨fun a b => Nat.le_total a.created_at b.created_at⟩

instance : IsTrans MessageRow msgOlderFirst :=
  ⟨fun _ _ _ hab hbc => Nat.le_trans hab hbc⟩

instance : IsTotal ChatRow chatNewerFirst :=
  ⟨fun a b => Nat.le_total b.created_at a.created_at⟩

instance : IsTrans ChatRow chatNewerFirst :=
  ⟨fun _ _ _ hab hbc => Nat.le_trans hbc hab⟩

/-- `SELECT * FROM chats WHERE user_id = $1 ORDER BY created_at DESC`. -/
def chatsOfUserDesc (db : DB) (uid : Nat) : List ChatRow :=
  List.insertionSort chatNewerFirst (db.chats.filter (fun c => c.user_id == uid))

/-- `SELECT id FROM chats WHERE user_id = $1 ORDER BY created_at DESC LIMIT 1`. -/
def latestChat (db : DB) (uid : Nat) : Option ChatRow :=
  (chatsOfUserDesc db uid).head?

/-- `SELECT * FROM messages WHERE chat_id = $1 ORDER BY created_at ASC`. -/
def messagesOfChatAsc (db : DB) (cid : Nat) : List MessageRow :=
  List.insertionSort msgOlderFirst (db.messages.filter (fun m => m.chat_id == cid))

/-- `SELECT * FROM chats WHERE id = $1 AND user_id = $2` (the ownership check). -/
def ownedChatRows (db : DB) (cid uid : Nat) : List ChatRow :=
  db.chats.filter (fun c => c.id == cid && c.user_id == uid)

/-! ## The completion provider (`groq-sdk` / `openai`) -/

/-- The `message` object inside a completion choice. -/
structure ChoiceMsg where
  content : String
  deriving Repr, DecidableEq

/-- One element of `completion.choices`. -/
structure Choice where
  message : ChoiceMsg
  deriving Repr, DecidableEq

/-- The completion returned by `chat.completions.create`. -/
structure Completion where
  choices : List Choice
  deriving Repr, DecidableEq

/-- The error object thrown by the SDK: the handlers read `error.error?.code`,
`error.error?.type` and `error.error?.message`. -/
structure ProviderError where
  code : Option String
  etype : Option String
  emsg : Option String
  deriving Repr, DecidableEq

/-- Outcome of one call to `chat.completions.create`: either a completion or a
thrown SDK error. -/
inductive ProviderResult where
  | ok (completion : Completion)
  | err (e : ProviderError)
  deriving Repr, DecidableEq

/-- The error-classification chain in `callGroqAPI` (both copies in `server.js`
are identical): SDK error codes are mapped onto the fixed error classes, and
anything unrecognised is re-thrown as `error.error?.message` with the fallback text `Groq API error`. -/
def classifyGroqError (e : ProviderError) : String :=
  if e.code = some "insufficient_quota" then "API_QUOTA_EXCEEDED"
  else if e.code = some "invalid_api_key" then "API_KEY_INVALID"
  else if e.code = some "rate_limit_exceeded" then "API_RATE_LIMIT"
  else if e.code = some "model_decommissioned" ∨ e.etype = some "invalid_request_error" then
    "MODEL_ERROR"
  else e.emsg.getD "Groq API error"

/-- `callGroqAPI(message, retries = 2)`.  The environment is modelled as the
sequence of outcomes the provider would give to successive attempts; the source
performs a single `groq.chat.completions.create` call, so only the outcome of
attempt `0` is ever consumed, and the `retries` parameter is declared but never
read. -/
def callGroqAPI (provider : Nat → ProviderResult) (retries : Nat) : Except String Completion :=
  match provider 0 with
  | ProviderResult.ok c => Except.ok c
  | ProviderResult.err e => Except.error (classifyGroqError e)

/-! ## Response records

JSON response bodies are embedded as records of optional fields: a field that
the handler does not put into the body is `none`. -/

/-- Response of the chat endpoints, together with the HTTP status. -/
structure ChatResp where
  status : Nat
  error : Option String := none
  message : Option String := none
  fallbackResponse : Option String := none
  response : Option String := none
  chatId : Option Nat := none
  isGuest : Option Bool := none
  success : Option Bool := none
  reply : Option String := none
  model : Option String := none
  details : Option String := none
  deriving Repr, DecidableEq

/-- Response of `GET /api/chats`. -/
structure ChatListResp where
  status : Nat
  error : Option String := none
  rows : Option (List ChatRow) := none
  deriving Repr, DecidableEq

/-- Response of `GET /api/chats/:chatId`. -/
structure MsgListResp where
  status : Nat
  error : Option String := none
  rows : Option (List MessageRow) := none
  deriving Repr, DecidableEq

/-- Response of `DELETE /api/chats/:chatId`. -/
structure DeleteResp where
  status : Nat
  error : Option String := none
  success : Option Bool := none
  message : Option String := none
  deriving Repr, DecidableEq

/-- Response of the profile endpoints. -/
structure ProfileResp where
  status : Nat
  error : Option String := none
  token : Option String := none
  userId : Option Nat := none
  userName : Option String := none
  deriving Repr, DecidableEq

/-! ## Out-of-scope primitives -/

/-- `bcrypt.hash(pin, 10)`, modelled as an injective tagging (credential
hashing is an out-of-scope external primitive). -/
def hashPin (pin : String) : String := "bcrypt$" ++ pin

/-- `jwt.sign` on the id and name with the signing secret, modelled as a
deterministic token (token issuance mechanics are out of scope). -/
def signToken (uid : Nat) (name : String) : String :=
  "jwt$" ++ toString uid ++ "$" ++ name

/-- `s.substring(0, n)`: the first `n` characters of `s`. -/
def jsSubstring (s : String) (n : Nat) : String := ⟨s.data.take n⟩

/-- `message.trim().length === 0`: the message consists solely of whitespace
(in particular, it is empty). -/
def isBlankMsg (s : String) : Bool := s.data.all Char.isWhitespace

/-! ## Variant A handlers (first copy in `server.js`) -/

/-- The canned fallback string of variant A chat error responses. -/
def fallbackA : String :=
  "I apologize, but I am currently unable to process your request. Please try again later."

/-- The guest chat title `Guest Chat - ${new Date().toLocaleString()}`; the wall
clock string is represented by the logical clock. -/
def guestTitleA (clock : Nat) : String := "Guest Chat - " ++ toString clock

/-- Chat resolution of the variant A `/api/chat` handler: a guest
(`userIdNum === 1`) gets a fresh chat on every message; an authenticated user
reuses the most recently created chat, or gets a fresh one if none exists.
Returns the new database state and the id of the chat to write into. -/
def resolveChatA (db : DB) (uid : Nat) (messageTitle : String) : DB × Nat :=
  if uid = 1 then insertChat db 1 (guestTitleA db.clock)
  else
    match latestChat db uid with
    | some c => (db, c.id)
    | none => insertChat db uid messageTitle

/-- The error branch of the variant A `/api/chat` handler: recognised provider
error classes give a fixed status plus a canned fallback; anything else is
re-thrown and caught by the surrounding catch as a generic 500. -/
def chatErrorRespA (e : String) : ChatResp :=
  if e = "API_QUOTA_EXCEEDED" then
    { status := 429, error := some e, message := some "AI service quota exceeded.",
      fallbackResponse := some fallbackA }
  else if e = "API_KEY_INVALID" then
    { status := 500, error := some e, message := some "AI service configuration error.",
      fallbackResponse := some fallbackA }
  else if e = "API_RATE_LIMIT" then
    { status := 429, error := some e, message := some "AI service rate limit exceeded.",
      fallbackResponse := some fallbackA }
  else if e = "MODEL_ERROR" then
    { status := 500, error := some e, message := some "AI model is unavailable.",
      fallbackResponse := some fallbackA }
  else { status := 500, error := some "Failed to process message" }

/-- The chat title derived from the message text in variant A:
the first 50 characters followed by three dots when the message is longer than 50 characters, the message itself otherwise. -/
def titleA (message : String) : String :=
  if message.length > 50 then jsSubstring message 50 ++ "..." else message

/-- The variant A `POST /api/chat` handler body.  `userIdNum` is the parsed
`X-User-ID` header (the deployed client always sends a decimal integer).  An
empty `message` is falsy and rejected with 400; an empty `choices` array would
make `data.choices[0].message.content` throw, which the surrounding catch turns
into a generic 500. -/
def chatPostA (db : DB) (userIdNum : Nat) (message : String)
    (provider : Nat → ProviderResult) : ChatResp × DB :=
  if message = "" then ({ status := 400, error := some "Message is required" }, db)
  else
    let resolved := resolveChatA db userIdNum (titleA message)
    let db2 := insertMessage resolved.1 resolved.2 "user" message
    match callGroqAPI provider 2 with
    | Except.error e => (chatErrorRespA e, db2)
    | Except.ok data =>
      match data.choices.head? with
      | none => ({ status := 500, error := some "Failed to process message" }, db2)
      | some choice =>
        ({ status := 200, response := some choice.message.content,
           chatId := some resolved.2, isGuest := some (userIdNum == 1) },
         insertMessage db2 resolved.2 "assistant" choice.message.content)

/-- The variant A `GET /api/chats` handler: 401 unless the `X-User-ID` header is
present and different from the guest sentinel, then the list of the chats of the caller, newest first. -/
def getChatsA (db : DB) (uidHdr : Option Nat) : ChatListResp :=
  match uidHdr with
  | none => { status := 401, error := some "Authentication required" }
  | some uid =>
    if uid = 1 then { status := 401, error := some "Authentication required" }
    else { status := 200, rows := some (chatsOfUserDesc db uid) }

/-- The variant A `GET /api/chats/:chatId` handler: authentication check, then
ownership check, then the chat messages ordered by creation time ascending. -/
def getChatMessagesA (db : DB) (uidHdr : Option Nat) (chatId : Nat) : MsgListResp :=
  match uidHdr with
  | none => { status := 401, error := some "Authentication required" }
  | some uid =>
    if uid = 1 then { status := 401, error := some "Authentication required" }
    else if ownedChatRows db chatId uid = [] then
      { status := 403, error := some "Access denied" }
    else { status := 200, rows := some (messagesOfChatAsc db chatId) }

/-- The variant A `DELETE /api/chats/:chatId` handler.  The `DELETE FROM chats`
statement removes the chat row, and the `ON DELETE CASCADE` clause of
`messages.chat_id` (declared in `initializeTables`) removes the messages of the
chat with it. -/
def deleteChatA (db : DB) (uidHdr : Option Nat) (chatId : Nat) : DeleteResp × DB :=
  match uidHdr with
  | none => ({ status := 401, error := some "Authentication required" }, db)
  | some uid =>
    if uid = 1 then ({ status := 401, error := some "Authentication required" }, db)
    else if ownedChatRows db chatId uid = [] then
      ({ status := 403, error := some "Access denied" }, db)
    else
      ({ status := 200, success := some true, message := some "Chat deleted successfully" },
       { db with chats := db.chats.filter (fun c => c.id != chatId),
                 messages := db.messages.filter (fun m => m.chat_id != chatId) })

/-- The PIN validation shared by both profile handlers:
`pin.length !== 4 || !/^\d{4}$/.test(pin)` — for a string this regular
expression holds exactly of four ASCII decimal digits. -/
def isFourDigitPin (pin : String) : Bool :=
  pin.length == 4 && pin.data.all Char.isDigit

/-- The variant A `POST /api/profile/create` handler.  The `users.name` column
is declared `UNIQUE`, so inserting an existing name raises Postgres error 23505,
which the catch block maps to HTTP 409. -/
def profileCreateA (db : DB) (name pin : Option String) : ProfileResp × DB :=
  match name, pin with
  | some n, some p =>
    if n = "" ∨ p = "" then
      ({ status := 400, error := some "Name and PIN are required" }, db)
    else if !(isFourDigitPin p) then
      ({ status := 400, error := some "PIN must be exactly 4 digits" }, db)
    else if db.users.any (fun u => u.name == n) then
      ({ status := 409, error := some "Name already exists. Please choose another." }, db)
    else
      let r := insertUser db n (hashPin p)
      ({ status := 200, token := some (signToken r.2 n), userId := some r.2,
         userName := some n }, r.1)
  | _, _ => ({ status := 400, error := some "Name and PIN are required" }, db)

/-! ## Variant A load tracking and load gate -/

/-- `const MAX_CONNECTIONS = 50`. -/
def MAX_CONNECTIONS : Nat := 50

/-- `const HIGH_LOAD_THRESHOLD = 70`. -/
def HIGH_LOAD_THRESHOLD : Nat := 70

/-- `serverLoad = Math.min(100, Math.round((activeConnections / MAX_CONNECTIONS) * 100))`.
For every feasible connection count the JavaScript float expression evaluates to
the exact integer `activeConnections * 100 / 50`, so the embedding uses exact
natural division (the division is exact because 50 divides 100). -/
def serverLoadOf (activeConnections : Nat) : Nat :=
  min 100 (activeConnections * 100 / MAX_CONNECTIONS)

/-- The `checkServerLoad` middleware: rejects with 503 when the load score
exceeds the threshold, otherwise passes the request on (`none`). -/
def checkServerLoad (serverLoad : Nat) : Option ChatResp :=
  if serverLoad > HIGH_LOAD_THRESHOLD then
    some { status := 503, error := some "SERVER_BUSY",
           message := some "Server is currently experiencing high load. Please try again later.",
           fallbackResponse := some "I apologize, but the server is currently experiencing high demand. Please try again in a moment." }
  else none

/-- Result of a request through the variant A middleware chain: the advertised
`X-Server-Load` header, the response and the database state. -/
structure GatedResult where
  loadHeader : Nat
  resp : ChatResp
  db : DB
  deriving Repr, DecidableEq

/-- `POST /api/chat` through the variant A middleware chain: the connection
tracker increments the in-flight counter and computes the load score from the
incremented counter, then `checkServerLoad` either sheds the request with 503 or
lets the handler run.  `active` is the in-flight counter before this request. -/
def gatedChatPostA (active : Nat) (db : DB) (userIdNum : Nat) (message : String)
    (provider : Nat → ProviderResult) : GatedResult :=
  match checkServerLoad (serverLoadOf (active + 1)) with
  | some r => { loadHeader := serverLoadOf (active + 1), resp := r, db := db }
  | none =>
    { loadHeader := serverLoadOf (active + 1),
      resp := (chatPostA db userIdNum message provider).1,
      db := (chatPostA db userIdNum message provider).2 }

/-! ## Variant B handlers (second copy in `server.js`) -/

/-- `s.includes("Groq")`: the split on the pattern has more than one piece
exactly when the pattern occurs in `s`. -/
def containsGroq (s : String) : Bool := (s.splitOn "Groq").length != 1

/-- The error branch of the variant B `/api/chat` handler, including its outer
catch: the four recognised classes get fixed statuses and canned fallbacks; an
unrecognised error is re-thrown, and the outer catch answers with the Groq
error envelope when the message mentions Groq and a plain 500 otherwise. -/
def chatErrorRespB (e : String) : ChatResp :=
  if e = "API_QUOTA_EXCEEDED" then
    { status := 429, error := some e,
      message := some "Groq API quota exceeded. Please check your plan and billing details.",
      fallbackResponse := some "I apologize, but I\x27m currently experiencing high demand. Please try again later." }
  else if e = "API_KEY_INVALID" then
    { status := 500, error := some e,
      message := some "Groq API key is invalid. Please check your configuration.",
      fallbackResponse := some "I apologize, but there\x27s a configuration issue with my AI capabilities. Please contact support." }
  else if e = "API_RATE_LIMIT" then
    { status := 429, error := some e,
      message := some "Groq API rate limit exceeded. Please try again later.",
      fallbackResponse := some "I apologize, but I\x27m currently experiencing high demand. Please try again in a moment." }
  else if e = "MODEL_ERROR" then
    { status := 500, error := some e,
      message := some "The AI model is currently unavailable. Please try again later.",
      fallbackResponse := some "I apologize, but my AI model is currently being updated. Please try again later." }
  else if containsGroq e then
    { status := 500, error := some "Groq API error",
      message := some "Failed to communicate with Groq API. Please try again later.",
      fallbackResponse := some "I apologize, but I\x27m having trouble connecting to my AI capabilities. Please try again later." }
  else { status := 500, error := some "Failed to process message" }

/-- The variant B `POST /api/chat` handler.  The source guards every database
write with `userId !== 1` and answers `chatId: userId !== 1 ? currentChatId :
null`; the embedding mirrors this by splitting on the guest test once.  A
missing `X-User-ID` header defaults to the guest sentinel 1.  `configured`
states whether `GROQ_API_KEY` is set. -/
def chatPostB (db : DB) (uidHdr : Option Nat) (configured : Bool) (message : String)
    (provider : Nat → ProviderResult) : ChatResp × DB :=
  if isBlankMsg message then ({ status := 400, error := some "Message required" }, db)
  else if configured = false then
    ({ status := 500, error := some "Groq API key not configured" }, db)
  else
    if uidHdr.getD 1 = 1 then
      match callGroqAPI provider 2 with
      | Except.error e => (chatErrorRespB e, db)
      | Except.ok data =>
        match data.choices.head? with
        | none => ({ status := 500, error := some "Failed to process message" }, db)
        | some choice =>
          ({ status := 200, response := some choice.message.content, chatId := none,
             isGuest := some true }, db)
    else
      let created := insertChat db (uidHdr.getD 1) (jsSubstring message 50 ++ "...")
      let db2 := insertMessage created.1 created.2 "user" message
      match callGroqAPI provider 2 with
      | Except.error e => (chatErrorRespB e, db2)
      | Except.ok data =>
        match data.choices.head? with
        | none => ({ status := 500, error := some "Failed to process message" }, db2)
        | some choice =>
          ({ status := 200, response := some choice.message.content,
             chatId := some created.2, isGuest := some false },
           insertMessage db2 created.2 "assistant" choice.message.content)

/-- The variant B `POST /api/profile/create` handler.  The variant B
`initializeTables` drops and recreates `users` with `name VARCHAR(255) NOT
NULL` and NO unique constraint, so the insert never raises 23505 and the
catch branch answering `Name already exists` is dead code: a duplicate name is
simply inserted as a second row. -/
def profileCreateB (db : DB) (name pin : Option String) : ProfileResp × DB :=
  match name, pin with
  | some n, some p =>
    if n = "" ∨ p = "" then
      ({ status := 400, error := some "Name and PIN required" }, db)
    else if !(isFourDigitPin p) then
      ({ status := 400, error := some "PIN must be exactly 4 digits" }, db)
    else
      let r := insertUser db n (hashPin p)
      ({ status := 200, token := some (signToken r.2 n), userId := some r.2,
         userName := some n }, r.1)
  | _, _ => ({ status := 400, error := some "Name and PIN required" }, db)

/-- The own property names of the variant B in-memory `cache` object. -/
def cacheFieldNames : List String :=
  ["users", "chats", "messages", "setWithExpiry", "getWithExpiry"]

/-- The variant B cache lookup `cache.getWithExpiry(key)` evaluates
`this[key].get(key)`: it reads the property named by the cache key on the cache
object itself instead of one of its three maps.  For every key the handlers
actually pass (a numeric chat id or `chats_<uid>`) that property is undefined
and the call throws a TypeError, which the calling handler catch converts into
HTTP 500.  `true` means the call throws. -/
def cacheGetWithExpiryThrows (key : String) : Bool :=
  !(cacheFieldNames.contains key)

/-- The variant B `GET /api/chats/:chatId` handler: authentication and
ownership checks as in variant A, then `cache.getWithExpiry(chatId)` before the
query — which always throws (see `cacheGetWithExpiryThrows`), so the catch
answers 500 and the message query is never reached. -/
def getChatMessagesB (db : DB) (uidHdr : Option Nat) (chatId : Nat) : MsgListResp :=
  match uidHdr with
  | none => { status := 401, error := some "Authentication required" }
  | some uid =>
    if uid = 1 then { status := 401, error := some "Authentication required" }
    else if ownedChatRows db chatId uid = [] then
      { status := 403, error := some "Access denied" }
    else if cacheGetWithExpiryThrows (Nat.repr chatId) then
      { status := 500, error := some "Database error" }
    else { status := 200, rows := some (messagesOfChatAsc db chatId) }

/-! ## Variant C handler (the unnamed minimal server) -/

/-- The variant C `POST /api/chat` handler: no persistence at all.  The reply is
`completion.choices[0]?.message?.content`, with the text `No response generated` when that is missing or empty, and the
success body is `{success: true, reply, model}` — there is no `response` and no
`chatId` field.  Modelled for a Groq-configured deployment (the `model` label
picks Groq when `GROQ_API_KEY` is set). -/
def chatPostC (message : String) (configured : Bool)
    (provider : Except String Completion) : ChatResp :=
  if message = "" then { status := 400, error := some "Message is required" }
  else if configured = false then
    { status := 503, error := some "AI service is not configured",
      details := some "Please set GROQ_API_KEY or OPENAI_API_KEY in environment" }
  else
    match provider with
    | Except.error e => { status := 500, error := some "Failed to process chat",
                          details := some e }
    | Except.ok completion =>
      let replyText :=
        match completion.choices.head? with
        | some c => if c.message.content = "" then "No response generated"
                    else c.message.content
        | none => "No response generated"
      { status := 200, success := some true, reply := some replyText,
        model := some "Groq (Llama 3.1)" }

/-! ## Concrete fixtures -/

/-- The bootstrapped guest sentinel row (insert of the fixed Guest row with id 1, kept on conflict). -/
def guestRow : UserRow := ⟨1, "Guest", hashPin "0000", 0⟩

/-- A freshly initialised database: only the guest sentinel exists. -/
def dbInit : DB :=
  { users := [guestRow], chats := [], messages := [],
    nextUserId := 2, nextChatId := 1, nextMsgId := 1, clock := 1 }

/-- A provider completion of the shape `{choices:[{message:{content: X}}]}`. -/
def oneChoice (X : String) : Completion := { choices := [{ message := { content := X } }] }

/-- A provider that succeeds on every attempt with the single-choice completion. -/
def okProvider (X : String) : Nat → ProviderResult :=
  fun _ => ProviderResult.ok (oneChoice X)

/-- The SDK error whose `error.error.code` equals `insufficient_quota`. -/
def quotaError : ProviderError := { code := some "insufficient_quota", etype := none, emsg := none }

/-- A provider that fails every attempt with the quota-exceeded error. -/
def quotaProvider : Nat → ProviderResult := fun _ => ProviderResult.err quotaError

/-- An authenticated user row used in concrete runs. -/
def aliceRow : UserRow := ⟨2, "alice", hashPin "1234", 1⟩

/-- A state in which user 2 exists and owns one chat, chat 5. -/
def dbAlice : DB :=
  { users := [guestRow, aliceRow], chats := [⟨5, 2, "old chat", 10⟩], messages := [],
    nextUserId := 3, nextChatId := 6, nextMsgId := 1, clock := 11 }

/-! ## Helper lemmas about the embedding -/

theorem insertChat_messages (db : DB) (uid : Nat) (t : String) :
    (insertChat db uid t).1.messages = db.messages := rfl

theorem insertMessage_chats (db : DB) (cid : Nat) (r c : String) :
    (insertMessage db cid r c).chats = db.chats := rfl

theorem resolveChatA_messages (db : DB) (uid : Nat) (t : String) :
    (resolveChatA db uid t).1.messages = db.messages := by
  unfold resolveChatA
  split
  · rfl
  · split <;> rfl

theorem latestChat_mem {db : DB} {uid : Nat} {c : ChatRow} (h : latestChat db uid = some c) :
    c ∈ db.chats ∧ c.user_id = uid := by
  unfold latestChat chatsOfUserDesc at h
  have hmem : c ∈ List.insertionSort chatNewerFirst
      (db.chats.filter (fun x => x.user_id == uid)) := by
    cases hs : List.insertionSort chatNewerFirst (db.chats.filter (fun x => x.user_id == uid)) with
    | nil => rw [hs] at h; simp at h
    | cons a t => rw [hs] at h; simp at h; subst h; exact List.mem_cons_self a t
  have hf : c ∈ db.chats.filter (fun x => x.user_id == uid) :=
    (List.perm_insertionSort chatNewerFirst _).subset hmem
  have := List.mem_filter.mp hf
  exact ⟨this.1, by simpa using this.2⟩

theorem latestChat_max {db : DB} {uid : Nat} {c : ChatRow} (h : latestChat db uid = some c) :
    ∀ c' ∈ db.chats, c'.user_id = uid → c'.created_at ≤ c.created_at := by
  intro c' hc' hu
  unfold latestChat chatsOfUserDesc at h
  have hsorted : List.Sorted chatNewerFirst
      (List.insertionSort chatNewerFirst (db.chats.filter (fun x => x.user_id == uid))) :=
    List.sorted_insertionSort chatNewerFirst _
  have hmem : c' ∈ List.insertionSort chatNewerFirst
      (db.chats.filter (fun x => x.user_id == uid)) := by
    refine (List.perm_insertionSort chatNewerFirst _).mem_iff.mpr ?_
    exact List.mem_filter.mpr ⟨hc', by simpa using hu⟩
  cases hs : List.insertionSort chatNewerFirst (db.chats.filter (fun x => x.user_id == uid)) with
  | nil => rw [hs] at h; simp at h
  | cons a t =>
    rw [hs] at h hmem hsorted
    simp at h
    subst h
    rcases List.mem_cons.mp hmem with h1 | h2
    · rw [h1]
    · exact (List.sorted_cons.mp hsorted).1 c' h2

theorem latestChat_none {db : DB} {uid : Nat} (h : latestChat db uid = none) :
    ∀ c ∈ db.chats, c.user_id ≠ uid := by
  intro c hc hu
  unfold latestChat chatsOfUserDesc at h
  have hnil : List.insertionSort chatNewerFirst
      (db.chats.filter (fun x => x.user_id == uid)) = [] := by
    cases hs : List.insertionSort chatNewerFirst (db.chats.filter (fun x => x.user_id == uid)) with
    | nil => rfl
    | cons a t => rw [hs] at h; simp at h
  have : db.chats.filter (fun x => x.user_id == uid) = [] := by
    have hp := List.perm_insertionSort chatNewerFirst
      (db.chats.filter (fun x => x.user_id == uid))
    rw [hnil] at hp
    exact hp.symm.eq_nil
  have := List.filter_eq_nil_iff.mp this c hc
  simp at this
  exact this hu

/-! ## Claim C9 -/

/-- C9: `callGroqAPI` performs exactly one provider attempt — its result is
determined by the outcome of attempt 0 alone — and its observable behaviour is
identical for every value of its `retries` parameter; no retry-with-backoff
exists. -/
theorem callGroqAPI_single_attempt :
    (∀ (p : Nat → ProviderResult) (r r' : Nat), callGroqAPI p r = callGroqAPI p r')
    ∧ (∀ (p q : Nat → ProviderResult) (r : Nat), p 0 = q 0 →
        callGroqAPI p r = callGroqAPI q r) := by
  constructor
  · intro p r r'
    rfl
  · intro p q r h
    unfold callGroqAPI
    rw [h]

/-- Witness for `callGroqAPI_single_attempt`: two providers agreeing on attempt
0 only, probed with different retry counts, give the same observable result. -/
theorem callGroqAPI_single_attempt_witness :
    callGroqAPI quotaProvider 2
      = callGroqAPI (fun n => if n = 0 then ProviderResult.err quotaError
                              else ProviderResult.ok (oneChoice "X")) 7 :=
  (callGroqAPI_single_attempt.1 quotaProvider 2 7).trans
    (callGroqAPI_single_attempt.2 quotaProvider _ 7 rfl)

/-! ## Claim C10 -/

/-- C10: a `POST /api/profile/create` request whose pin field is present but is
not a string of exactly four decimal digits is answered with HTTP 400 by both
server variants, and the users store (indeed the whole database) is unchanged. -/
theorem profileCreate_badPin_rejected (db : DB) (name : Option String) (p : String)
    (hp : isFourDigitPin p = false) :
    ((profileCreateA db name (some p)).1.status = 400
      ∧ (profileCreateA db name (some p)).2 = db)
    ∧ ((profileCreateB db name (some p)).1.status = 400
      ∧ (profileCreateB db name (some p)).2 = db) := by
  cases name with
  | none => exact ⟨⟨rfl, rfl⟩, ⟨rfl, rfl⟩⟩
  | some n =>
    by_cases h1 : n = "" ∨ p = ""
    · constructor
      · simp [profileCreateA, h1]
      · simp [profileCreateB, h1]
    · constructor
      · simp [profileCreateA, h1, hp]
      · simp [profileCreateB, h1, hp]

/-- Witness for `profileCreate_badPin_rejected` at the concrete pin "12a4". -/
theorem profileCreate_badPin_rejected_witness :
    ((profileCreateA dbInit (some "bob") (some "12a4")).1.status = 400
      ∧ (profileCreateA dbInit (some "bob") (some "12a4")).2 = dbInit)
    ∧ ((profileCreateB dbInit (some "bob") (some "12a4")).1.status = 400
      ∧ (profileCreateB dbInit (some "bob") (some "12a4")).2 = dbInit) :=
  profileCreate_badPin_rejected dbInit (some "bob") "12a4" (by decide)

/-! ## Claim C7 -/

/-- The variant A chat handler itself never answers 503: its statuses are
400, 429, 500 and 200; 503 can only come from the load gate. -/
theorem chatPostA_status_ne_503 (db : DB) (uid : Nat) (msg : String)
    (provider : Nat → ProviderResult) : (chatPostA db uid msg provider).1.status ≠ 503 := by
  unfold chatPostA
  split
  · simp
  · cases hq : callGroqAPI provider 2 with
    | error e =>
      simp only [hq]
      unfold chatErrorRespA
      split_ifs <;> simp
    | ok data =>
      cases hh : data.choices.head? with
      | none => simp [hq, hh]
      | some choice => simp [hq, hh]

/-- C7: on a `POST /api/chat` request the advertised `X-Server-Load` score is
the in-flight counter (incremented for the arriving request) over the fixed
capacity `MAX_CONNECTIONS`, scaled to 0-100 and capped at 100, hence always at
most 100; and the request is rejected with HTTP 503 exactly when that score
exceeds `HIGH_LOAD_THRESHOLD`. -/
theorem serverLoad_gate (active : Nat) (db : DB) (uid : Nat) (msg : String)
    (provider : Nat → ProviderResult) :
    (gatedChatPostA active db uid msg provider).loadHeader
        = min 100 ((active + 1) * 100 / MAX_CONNECTIONS)
    ∧ (gatedChatPostA active db uid msg provider).loadHeader ≤ 100
    ∧ ((gatedChatPostA active db uid msg provider).resp.status = 503
        ↔ HIGH_LOAD_THRESHOLD < serverLoadOf (active + 1)) := by
  refine ⟨?_, ?_, ?_⟩
  · unfold gatedChatPostA
    split <;> rfl
  · have h1 : (gatedChatPostA active db uid msg provider).loadHeader
        = serverLoadOf (active + 1) := by
      unfold gatedChatPostA
      split <;> rfl
    rw [h1]
    exact Nat.min_le_left _ _
  · by_cases h : HIGH_LOAD_THRESHOLD < serverLoadOf (active + 1)
    · unfold gatedChatPostA checkServerLoad
      simp [h]
    · unfold gatedChatPostA checkServerLoad
      simp [h]
      exact chatPostA_status_ne_503 db uid msg provider

/-! ## Claim C4 -/

/-- C4: duplicate registration, evaluated at the failing input (two
`POST /api/profile/create` requests with name "bob", pin "1234").  Variant A,
whose `users.name` column is `UNIQUE`, answers the second request with 409 and
keeps a single row; variant B, whose recreated `users` table has no unique
constraint, answers the second request with 200 and inserts a second "bob"
row — its catch branch for Postgres error 23505 is dead code. -/
theorem profileCreate_duplicate_eval :
    ((profileCreateA (profileCreateA dbInit (some "bob") (some "1234")).2
        (some "bob") (some "1234")).1.status = 409)
    ∧ (((profileCreateA (profileCreateA dbInit (some "bob") (some "1234")).2
        (some "bob") (some "1234")).2.users.filter (fun u => u.name == "bob")).length = 1)
    ∧ ((profileCreateB (profileCreateB dbInit (some "bob") (some "1234")).2
        (some "bob") (some "1234")).1.status = 200)
    ∧ (((profileCreateB (profileCreateB dbInit (some "bob") (some "1234")).2
        (some "bob") (some "1234")).2.users.filter (fun u => u.name == "bob")).length = 2) := by
  decide

/-! ## Claim C5 -/

/-- A state for exercising `GET /api/chats/:chatId`: user 2 owns chat 5 with
two messages; one message of another chat (id 9) also exists. -/
def dbMsgs : DB :=
  { users := [guestRow, aliceRow],
    chats := [⟨5, 2, "old chat", 10⟩],
    messages := [⟨1, 5, "user", "hi", 11⟩, ⟨2, 5, "assistant", "yo", 12⟩,
                 ⟨3, 9, "user", "other", 13⟩],
    nextUserId := 3, nextChatId := 6, nextMsgId := 4, clock := 14 }

/-- C5: the messages endpoint, evaluated at the failing input (owner, user 2,
fetching own chat 5).  Variant A answers 200 with exactly the two messages of
chat 5 in ascending creation order; variant B passes the same ownership check
but then throws inside `cache.getWithExpiry` and answers 500 with no message
list — variant B can never return a message list. -/
theorem getChatMessages_eval :
    ((getChatMessagesA dbMsgs (some 2) 5).status = 200)
    ∧ ((getChatMessagesA dbMsgs (some 2) 5).rows
        = some [⟨1, 5, "user", "hi", 11⟩, ⟨2, 5, "assistant", "yo", 12⟩])
    ∧ ((getChatMessagesB dbMsgs (some 2) 5).status = 500)
    ∧ ((getChatMessagesB dbMsgs (some 2) 5).rows = none) := by
  decide

/-! ## Claim C1 -/

/-- C1 counterexample: the variant C chat endpoint, given a non-empty message
and a provider success `{choices:[{message:{content:"X"}}]}`, answers 200 but
carries the text in a `reply` field — the body has no `response` field and no
`chatId` field, so the response does not satisfy the claimed shape. -/
theorem chatPostC_shape_counterexample :
    ((chatPostC "hi" true (Except.ok (oneChoice "X"))).status = 200)
    ∧ ((chatPostC "hi" true (Except.ok (oneChoice "X"))).reply = some "X")
    ∧ ((chatPostC "hi" true (Except.ok (oneChoice "X"))).response = none)
    ∧ ((chatPostC "hi" true (Except.ok (oneChoice "X"))).chatId = none) := by
  decide

/-! ## Evaluation equations for the chat handlers -/

theorem chatPostA_ok_eq (db : DB) (uid : Nat) (msg X : String) (hm : msg ≠ "") :
    chatPostA db uid msg (okProvider X)
      = ({ status := 200, response := some X,
           chatId := some (resolveChatA db uid (titleA msg)).2,
           isGuest := some (uid == 1) },
         insertMessage
           (insertMessage (resolveChatA db uid (titleA msg)).1
             (resolveChatA db uid (titleA msg)).2 "user" msg)
           (resolveChatA db uid (titleA msg)).2 "assistant" X) := by
  unfold chatPostA
  rw [if_neg hm]
  rfl

theorem chatPostA_quota_eq (db : DB) (uid : Nat) (msg : String) (hm : msg ≠ "") :
    chatPostA db uid msg quotaProvider
      = (chatErrorRespA "API_QUOTA_EXCEEDED",
         insertMessage (resolveChatA db uid (titleA msg)).1
           (resolveChatA db uid (titleA msg)).2 "user" msg) := by
  unfold chatPostA
  rw [if_neg hm]
  rfl

theorem chatPostB_ok_guest_eq (db : DB) (msg X : String) (hm : isBlankMsg msg = false) :
    chatPostB db (some 1) true msg (okProvider X)
      = ({ status := 200, response := some X, chatId := none, isGuest := some true }, db) := by
  unfold chatPostB
  rw [if_neg (by simp [hm]), if_neg (by simp)]
  rfl

theorem chatPostB_ok_auth_eq (db : DB) (uid : Nat) (msg X : String)
    (hu : uid ≠ 1) (hm : isBlankMsg msg = false) :
    chatPostB db (some uid) true msg (okProvider X)
      = ({ status := 200, response := some X,
           chatId := some (insertChat db uid (jsSubstring msg 50 ++ "...")).2,
           isGuest := some false },
         insertMessage
           (insertMessage (insertChat db uid (jsSubstring msg 50 ++ "...")).1
             (insertChat db uid (jsSubstring msg 50 ++ "...")).2 "user" msg)
           (insertChat db uid (jsSubstring msg 50 ++ "...")).2 "assistant" X) := by
  unfold chatPostB
  rw [if_neg (by simp [hm]), if_neg (by simp),
      show (some uid).getD 1 = uid from rfl, if_neg hu]
  rfl

theorem chatPostB_quota_guest_eq (db : DB) (msg : String) (hm : isBlankMsg msg = false) :
    chatPostB db (some 1) true msg quotaProvider
      = (chatErrorRespB "API_QUOTA_EXCEEDED", db) := by
  unfold chatPostB
  rw [if_neg (by simp [hm]), if_neg (by simp)]
  rfl

theorem chatPostB_quota_auth_eq (db : DB) (uid : Nat) (msg : String)
    (hu : uid ≠ 1) (hm : isBlankMsg msg = false) :
    chatPostB db (some uid) true msg quotaProvider
      = (chatErrorRespB "API_QUOTA_EXCEEDED",
         insertMessage (insertChat db uid (jsSubstring msg 50 ++ "...")).1
           (insertChat db uid (jsSubstring msg 50 ++ "...")).2 "user" msg) := by
  unfold chatPostB
  rw [if_neg (by simp [hm]), if_neg (by simp),
      show (some uid).getD 1 = uid from rfl, if_neg hu]
  rfl

/-- C1 (amended): when the provider succeeds with
`{choices:[{message:{content: X}}]}` on a non-empty message, the variant A
endpoint answers 200 with `response = X` and `chatId` naming the chat into
which the user and assistant messages of the turn were written; variant B
behaves the same for authenticated callers, while for guests it answers 200
with `response = X` but `chatId: null` and touches no chat (no chat is used for
a guest turn); variant C answers 200 carrying the text in a `reply` field, with
no `response` and no `chatId` field in the body. -/
theorem chatPost_success_response :
    (∀ (db : DB) (uid : Nat) (msg X : String), msg ≠ "" →
      ((chatPostA db uid msg (okProvider X)).1.status = 200)
      ∧ ((chatPostA db uid msg (okProvider X)).1.response = some X)
      ∧ (∃ cid, (chatPostA db uid msg (okProvider X)).1.chatId = some cid
          ∧ (∃ m ∈ (chatPostA db uid msg (okProvider X)).2.messages,
              m.chat_id = cid ∧ m.role = "user" ∧ m.content = msg)
          ∧ (∃ m ∈ (chatPostA db uid msg (okProvider X)).2.messages,
              m.chat_id = cid ∧ m.role = "assistant" ∧ m.content = X)))
    ∧ (∀ (db : DB) (uid : Nat) (msg X : String), uid ≠ 1 → isBlankMsg msg = false →
      ((chatPostB db (some uid) true msg (okProvider X)).1.status = 200)
      ∧ ((chatPostB db (some uid) true msg (okProvider X)).1.response = some X)
      ∧ (∃ cid, (chatPostB db (some uid) true msg (okProvider X)).1.chatId = some cid
          ∧ (∃ m ∈ (chatPostB db (some uid) true msg (okProvider X)).2.messages,
              m.chat_id = cid ∧ m.role = "user" ∧ m.content = msg)
          ∧ (∃ m ∈ (chatPostB db (some uid) true msg (okProvider X)).2.messages,
              m.chat_id = cid ∧ m.role = "assistant" ∧ m.content = X)))
    ∧ (∀ (db : DB) (msg X : String), isBlankMsg msg = false →
      ((chatPostB db (some 1) true msg (okProvider X)).1.status = 200)
      ∧ ((chatPostB db (some 1) true msg (okProvider X)).1.response = some X)
      ∧ ((chatPostB db (some 1) true msg (okProvider X)).1.chatId = none)
      ∧ ((chatPostB db (some 1) true msg (okProvider X)).2 = db))
    ∧ (∀ (msg X : String), msg ≠ "" → X ≠ "" →
      ((chatPostC msg true (Except.ok (oneChoice X))).status = 200)
      ∧ ((chatPostC msg true (Except.ok (oneChoice X))).reply = some X)
      ∧ ((chatPostC msg true (Except.ok (oneChoice X))).response = none)
      ∧ ((chatPostC msg true (Except.ok (oneChoice X))).chatId = none)) := by
  refine ⟨?_, ?_, ?_, ?_⟩
  · intro db uid msg X hm
    rw [chatPostA_ok_eq db uid msg X hm]
    refine ⟨rfl, rfl, (resolveChatA db uid (titleA msg)).2, rfl, ?_, ?_⟩
    · exact ⟨⟨(resolveChatA db uid (titleA msg)).1.nextMsgId,
              (resolveChatA db uid (titleA msg)).2, "user", msg,
              (resolveChatA db uid (titleA msg)).1.clock⟩,
            by simp [insertMessage], rfl, rfl, rfl⟩
    · exact ⟨⟨(insertMessage (resolveChatA db uid (titleA msg)).1
                 (resolveChatA db uid (titleA msg)).2 "user" msg).nextMsgId,
              (resolveChatA db uid (titleA msg)).2, "assistant", X,
              (insertMessage (resolveChatA db uid (titleA msg)).1
                 (resolveChatA db uid (titleA msg)).2 "user" msg).clock⟩,
            by simp [insertMessage], rfl, rfl, rfl⟩
  · intro db uid msg X hu hm
    rw [chatPostB_ok_auth_eq db uid msg X hu hm]
    refine ⟨rfl, rfl, (insertChat db uid (jsSubstring msg 50 ++ "...")).2, rfl, ?_, ?_⟩
    · exact ⟨⟨(insertChat db uid (jsSubstring msg 50 ++ "...")).1.nextMsgId,
              (insertChat db uid (jsSubstring msg 50 ++ "...")).2, "user", msg,
              (insertChat db uid (jsSubstring msg 50 ++ "...")).1.clock⟩,
            by simp [insertMessage], rfl, rfl, rfl⟩
    · exact ⟨⟨(insertMessage (insertChat db uid (jsSubstring msg 50 ++ "...")).1
                 (insertChat db uid (jsSubstring msg 50 ++ "...")).2 "user" msg).nextMsgId,
              (insertChat db uid (jsSubstring msg 50 ++ "...")).2, "assistant", X,
              (insertMessage (insertChat db uid (jsSubstring msg 50 ++ "...")).1
                 (insertChat db uid (jsSubstring msg 50 ++ "...")).2 "user" msg).clock⟩,
            by simp [insertMessage], rfl, rfl, rfl⟩
  · intro db msg X hm
    rw [chatPostB_ok_guest_eq db msg X hm]
    exact ⟨rfl, rfl, rfl, rfl⟩
  · intro msg X hm hX
    unfold chatPostC
    rw [if_neg hm, if_neg (by simp)]
    refine ⟨rfl, ?_, rfl, rfl⟩
    simp [oneChoice, hX]

/-- Witness for `chatPost_success_response`: user 2 in `dbAlice` sends "hi"
and the provider replies with content "X", for all four conjuncts. -/
theorem chatPost_success_response_witness :
    (((chatPostA dbAlice 2 "hi" (okProvider "X")).1.status = 200)
      ∧ ((chatPostA dbAlice 2 "hi" (okProvider "X")).1.response = some "X")
      ∧ (∃ cid, (chatPostA dbAlice 2 "hi" (okProvider "X")).1.chatId = some cid
          ∧ (∃ m ∈ (chatPostA dbAlice 2 "hi" (okProvider "X")).2.messages,
              m.chat_id = cid ∧ m.role = "user" ∧ m.content = "hi")
          ∧ (∃ m ∈ (chatPostA dbAlice 2 "hi" (okProvider "X")).2.messages,
              m.chat_id = cid ∧ m.role = "assistant" ∧ m.content = "X")))
    ∧ (((chatPostB dbAlice (some 2) true "hi" (okProvider "X")).1.status = 200)
      ∧ ((chatPostB dbAlice (some 2) true "hi" (okProvider "X")).1.response = some "X")
      ∧ (∃ cid, (chatPostB dbAlice (some 2) true "hi" (okProvider "X")).1.chatId = some cid
          ∧ (∃ m ∈ (chatPostB dbAlice (some 2) true "hi" (okProvider "X")).2.messages,
              m.chat_id = cid ∧ m.role = "user" ∧ m.content = "hi")
          ∧ (∃ m ∈ (chatPostB dbAlice (some 2) true "hi" (okProvider "X")).2.messages,
              m.chat_id = cid ∧ m.role = "assistant" ∧ m.content = "X")))
    ∧ (((chatPostB dbAlice (some 1) true "hi" (okProvider "X")).1.status = 200)
      ∧ ((chatPostB dbAlice (some 1) true "hi" (okProvider "X")).1.response = some "X")
      ∧ ((chatPostB dbAlice (some 1) true "hi" (okProvider "X")).1.chatId = none)
      ∧ ((chatPostB dbAlice (some 1) true "hi" (okProvider "X")).2 = dbAlice))
    ∧ (((chatPostC "hi" true (Except.ok (oneChoice "X"))).status = 200)
      ∧ ((chatPostC "hi" true (Except.ok (oneChoice "X"))).reply = some "X")
      ∧ ((chatPostC "hi" true (Except.ok (oneChoice "X"))).response = none)
      ∧ ((chatPostC "hi" true (Except.ok (oneChoice "X"))).chatId = none)) :=
  ⟨chatPost_success_response.1 dbAlice 2 "hi" "X" (by decide),
   chatPost_success_response.2.1 dbAlice 2 "hi" "X" (by decide) (by decide),
   chatPost_success_response.2.2.1 dbAlice "hi" "X" (by decide),
   chatPost_success_response.2.2.2 "hi" "X" (by decide) (by decide)⟩

/-! ## Claim C2 -/

/-- Variant B persists nothing whenever the caller resolves to the guest
sentinel (header absent or `1`), whatever the provider does. -/
theorem chatPostB_guest_preserves (db : DB) (hdr : Option Nat) (hh : hdr.getD 1 = 1)
    (msg : String) (c : Bool) (provider : Nat → ProviderResult) :
    (chatPostB db hdr c msg provider).2 = db := by
  unfold chatPostB
  split
  · rfl
  · split
    · rfl
    · split
      · rfl
      · split <;> rfl

/-- C2 (amended): in variant A the claimed rule holds — the guest sentinel
always gets a freshly created chat, and an authenticated caller reuses the
chat with the greatest creation time, or gets a freshly created chat exactly
when no chat of theirs exists.  In variant B the rule fails: a guest gets no
chat at all (nothing is persisted), and an authenticated caller always gets a
freshly created chat even when one already exists. -/
theorem chatResolution :
    (∀ (db : DB) (t : String),
      (resolveChatA db 1 t).2 = db.nextChatId
      ∧ (resolveChatA db 1 t).1.chats
          = db.chats ++ [⟨db.nextChatId, 1, guestTitleA db.clock, db.clock⟩])
    ∧ (∀ (db : DB) (uid : Nat) (t : String) (c : ChatRow), uid ≠ 1 →
        latestChat db uid = some c →
        (resolveChatA db uid t).1 = db ∧ (resolveChatA db uid t).2 = c.id
        ∧ c ∈ db.chats ∧ c.user_id = uid
        ∧ ∀ c' ∈ db.chats, c'.user_id = uid → c'.created_at ≤ c.created_at)
    ∧ (∀ (db : DB) (uid : Nat) (t : String), uid ≠ 1 →
        latestChat db uid = none →
        (resolveChatA db uid t).2 = db.nextChatId
        ∧ (resolveChatA db uid t).1.chats = db.chats ++ [⟨db.nextChatId, uid, t, db.clock⟩]
        ∧ ∀ c ∈ db.chats, c.user_id ≠ uid)
    ∧ (∀ (db : DB) (msg : String) (provider : Nat → ProviderResult),
        (chatPostB db (some 1) true msg provider).2 = db
        ∧ (chatPostB db none true msg provider).2 = db)
    ∧ (∀ (db : DB) (uid : Nat) (msg : String) (provider : Nat → ProviderResult),
        uid ≠ 1 → isBlankMsg msg = false →
        (chatPostB db (some uid) true msg provider).2.chats
          = db.chats ++ [⟨db.nextChatId, uid, jsSubstring msg 50 ++ "...", db.clock⟩]) := by
  refine ⟨?_, ?_, ?_, ?_, ?_⟩
  · intro db t
    unfold resolveChatA
    rw [if_pos rfl]
    exact ⟨rfl, rfl⟩
  · intro db uid t c hu hl
    have hmem := latestChat_mem hl
    have hmax := latestChat_max hl
    unfold resolveChatA
    rw [if_neg hu, hl]
    exact ⟨rfl, rfl, hmem.1, hmem.2, hmax⟩
  · intro db uid t hu hl
    unfold resolveChatA
    rw [if_neg hu, hl]
    exact ⟨rfl, rfl, latestChat_none hl⟩
  · intro db msg provider
    exact ⟨chatPostB_guest_preserves db (some 1) rfl msg true provider,
           chatPostB_guest_preserves db none rfl msg true provider⟩
  · intro db uid msg provider hu hm
    unfold chatPostB
    rw [if_neg (by simp [hm]), if_neg (by simp),
        show (some uid).getD 1 = uid from rfl, if_neg hu]
    split
    · simp [insertMessage, insertChat]
    · split <;> simp [insertMessage, insertChat]

/-- C2 counterexample: in variant B an authenticated caller (user 2 of
`dbAlice`) whose most recently created chat is chat 5 does not reuse it — the
handler inserts a fresh chat 6 and answers with chatId 6. -/
theorem chatPostB_no_reuse_counterexample :
    (dbAlice.chats.map (fun c => c.id) = [5])
    ∧ (dbAlice.chats.map (fun c => c.user_id) = [2])
    ∧ ((chatPostB dbAlice (some 2) true "hello" (okProvider "X")).1.chatId = some 6)
    ∧ ((chatPostB dbAlice (some 2) true "hello" (okProvider "X")).2.chats.map (fun c => c.id)
        = [5, 6]) := by
  decide

/-- Witness for `chatResolution`: each conjunct instantiated at `dbAlice`. -/
theorem chatResolution_witness :
    ((resolveChatA dbAlice 1 "t").2 = dbAlice.nextChatId
      ∧ (resolveChatA dbAlice 1 "t").1.chats
          = dbAlice.chats ++ [⟨dbAlice.nextChatId, 1, guestTitleA dbAlice.clock, dbAlice.clock⟩])
    ∧ ((resolveChatA dbAlice 2 "t").1 = dbAlice
      ∧ (resolveChatA dbAlice 2 "t").2 = (⟨5, 2, "old chat", 10⟩ : ChatRow).id
      ∧ (⟨5, 2, "old chat", 10⟩ : ChatRow) ∈ dbAlice.chats
      ∧ (⟨5, 2, "old chat", 10⟩ : ChatRow).user_id = 2
      ∧ ∀ c' ∈ dbAlice.chats, c'.user_id = 2
          → c'.created_at ≤ (⟨5, 2, "old chat", 10⟩ : ChatRow).created_at)
    ∧ ((resolveChatA dbAlice 3 "t").2 = dbAlice.nextChatId
      ∧ (resolveChatA dbAlice 3 "t").1.chats
          = dbAlice.chats ++ [⟨dbAlice.nextChatId, 3, "t", dbAlice.clock⟩]
      ∧ ∀ c ∈ dbAlice.chats, c.user_id ≠ 3)
    ∧ ((chatPostB dbAlice (some 1) true "hi" (okProvider "X")).2 = dbAlice
      ∧ (chatPostB dbAlice none true "hi" (okProvider "X")).2 = dbAlice)
    ∧ ((chatPostB dbAlice (some 2) true "hi" (okProvider "X")).2.chats
        = dbAlice.chats
          ++ [⟨dbAlice.nextChatId, 2, jsSubstring "hi" 50 ++ "...", dbAlice.clock⟩]) :=
  ⟨chatResolution.1 dbAlice "t",
   chatResolution.2.1 dbAlice 2 "t" ⟨5, 2, "old chat", 10⟩ (by decide) (by decide),
   chatResolution.2.2.1 dbAlice 3 "t" (by decide) (by decide),
   chatResolution.2.2.2.1 dbAlice "hi" (okProvider "X"),
   chatResolution.2.2.2.2 dbAlice 2 "hi" (okProvider "X") (by decide) (by decide)⟩

/-! ## Claim C3 -/

/-- C3: when the provider call fails with the quota-exceeded error class on a
chat turn, both server variants answer HTTP 429 with a non-empty
`fallbackResponse` string, and no assistant-role message is inserted for that
turn.  Variant A persists exactly the user message of the turn, for every
caller including the guest sentinel; variant B persists nothing for a guest
and exactly the user message for an authenticated caller. -/
theorem chatPost_quota :
    (∀ (db : DB) (uid : Nat) (msg : String), msg ≠ "" →
      ((chatPostA db uid msg quotaProvider).1.status = 429)
      ∧ (∃ s, (chatPostA db uid msg quotaProvider).1.fallbackResponse = some s ∧ s ≠ "")
      ∧ ((chatPostA db uid msg quotaProvider).2.messages
          = db.messages ++ [⟨(resolveChatA db uid (titleA msg)).1.nextMsgId,
                             (resolveChatA db uid (titleA msg)).2, "user", msg,
                             (resolveChatA db uid (titleA msg)).1.clock⟩])
      ∧ (∀ m ∈ (chatPostA db uid msg quotaProvider).2.messages,
          m ∈ db.messages ∨ m.role = "user"))
    ∧ (∀ (db : DB) (msg : String), isBlankMsg msg = false →
      ((chatPostB db (some 1) true msg quotaProvider).1.status = 429)
      ∧ (∃ s, (chatPostB db (some 1) true msg quotaProvider).1.fallbackResponse
            = some s ∧ s ≠ "")
      ∧ ((chatPostB db (some 1) true msg quotaProvider).2 = db))
    ∧ (∀ (db : DB) (uid : Nat) (msg : String), uid ≠ 1 → isBlankMsg msg = false →
      ((chatPostB db (some uid) true msg quotaProvider).1.status = 429)
      ∧ (∃ s, (chatPostB db (some uid) true msg quotaProvider).1.fallbackResponse
            = some s ∧ s ≠ "")
      ∧ (∀ m ∈ (chatPostB db (some uid) true msg quotaProvider).2.messages,
          m ∈ db.messages ∨ m.role = "user")) := by
  refine ⟨?_, ?_, ?_⟩
  · intro db uid msg hmA
    have hA := chatPostA_quota_eq db uid msg hmA
    have hAmsg : (chatPostA db uid msg quotaProvider).2.messages
        = db.messages ++ [⟨(resolveChatA db uid (titleA msg)).1.nextMsgId,
                           (resolveChatA db uid (titleA msg)).2, "user", msg,
                           (resolveChatA db uid (titleA msg)).1.clock⟩] := by
      rw [hA]
      simp [insertMessage, resolveChatA_messages]
    refine ⟨by rw [hA]; rfl,
            ⟨fallbackA, by rw [hA]; rfl, by decide⟩, hAmsg, ?_⟩
    intro m hm
    rw [hAmsg] at hm
    rcases List.mem_append.mp hm with h | h
    · exact Or.inl h
    · simp at h
      subst h
      exact Or.inr rfl
  · intro db msg hmB
    have hBg := chatPostB_quota_guest_eq db msg hmB
    exact ⟨by rw [hBg]; rfl,
           ⟨"I apologize, but I\x27m currently experiencing high demand. Please try again later.",
             by rw [hBg]; rfl, by decide⟩,
           by rw [hBg]⟩
  · intro db uid msg huB hmB
    have hBa := chatPostB_quota_auth_eq db uid msg huB hmB
    have hBamsg : (chatPostB db (some uid) true msg quotaProvider).2.messages
        = db.messages ++ [⟨db.nextMsgId,
                           (insertChat db uid (jsSubstring msg 50 ++ "...")).2, "user", msg,
                           db.clock + 1⟩] := by
      rw [hBa]
      simp [insertMessage, insertChat]
    refine ⟨by rw [hBa]; rfl,
            ⟨"I apologize, but I\x27m currently experiencing high demand. Please try again later.",
              by rw [hBa]; rfl, by decide⟩, ?_⟩
    intro m hm
    rw [hBamsg] at hm
    rcases List.mem_append.mp hm with h | h
    · exact Or.inl h
    · simp at h
      subst h
      exact Or.inr rfl

/-- Witness for `chatPost_quota`: a guest quota turn (user 1) and an
authenticated quota turn (user 2) on `dbAlice`, message "hi". -/
theorem chatPost_quota_witness :
    (((chatPostA dbAlice 1 "hi" quotaProvider).1.status = 429)
      ∧ (∃ s, (chatPostA dbAlice 1 "hi" quotaProvider).1.fallbackResponse = some s ∧ s ≠ "")
      ∧ ((chatPostA dbAlice 1 "hi" quotaProvider).2.messages
          = dbAlice.messages ++ [⟨(resolveChatA dbAlice 1 (titleA "hi")).1.nextMsgId,
                             (resolveChatA dbAlice 1 (titleA "hi")).2, "user", "hi",
                             (resolveChatA dbAlice 1 (titleA "hi")).1.clock⟩])
      ∧ (∀ m ∈ (chatPostA dbAlice 1 "hi" quotaProvider).2.messages,
          m ∈ dbAlice.messages ∨ m.role = "user"))
    ∧ (((chatPostB dbAlice (some 1) true "hi" quotaProvider).1.status = 429)
      ∧ (∃ s, (chatPostB dbAlice (some 1) true "hi" quotaProvider).1.fallbackResponse
            = some s ∧ s ≠ "")
      ∧ ((chatPostB dbAlice (some 1) true "hi" quotaProvider).2 = dbAlice))
    ∧ (((chatPostB dbAlice (some 2) true "hi" quotaProvider).1.status = 429)
      ∧ (∃ s, (chatPostB dbAlice (some 2) true "hi" quotaProvider).1.fallbackResponse
            = some s ∧ s ≠ "")
      ∧ (∀ m ∈ (chatPostB dbAlice (some 2) true "hi" quotaProvider).2.messages,
          m ∈ dbAlice.messages ∨ m.role = "user")) :=
  ⟨chatPost_quota.1 dbAlice 1 "hi" (by decide),
   chatPost_quota.2.1 dbAlice "hi" (by decide),
   chatPost_quota.2.2 dbAlice 2 "hi" (by decide) (by decide)⟩

/-! ## Claim C6 -/

/-- C6: a `DELETE /api/chats/:chatId` by the owning authenticated user answers
200; afterwards no chat row with that id and (by the `ON DELETE CASCADE`
schema clause) no message row of that chat remains, and every subsequent
`GET /api/chats/:chatId` for that id answers 401 or 403 with no message list. -/
theorem deleteChat_cascades (db : DB) (uid cid : Nat) (hu : uid ≠ 1)
    (hown : ownedChatRows db cid uid ≠ []) :
    ((deleteChatA db (some uid) cid).1.status = 200)
    ∧ (∀ c ∈ (deleteChatA db (some uid) cid).2.chats, c.id ≠ cid)
    ∧ (∀ m ∈ (deleteChatA db (some uid) cid).2.messages, m.chat_id ≠ cid)
    ∧ (∀ hdr : Option Nat,
        ((getChatMessagesA (deleteChatA db (some uid) cid).2 hdr cid).status = 401
          ∨ (getChatMessagesA (deleteChatA db (some uid) cid).2 hdr cid).status = 403)
        ∧ (getChatMessagesA (deleteChatA db (some uid) cid).2 hdr cid).rows = none) := by
  have hdel : deleteChatA db (some uid) cid
      = ({ status := 200, success := some true, message := some "Chat deleted successfully" },
         { db with chats := db.chats.filter (fun c => c.id != cid),
                   messages := db.messages.filter (fun m => m.chat_id != cid) }) := by
    simp only [deleteChatA]
    rw [if_neg hu, if_neg hown]
  refine ⟨by rw [hdel], ?_, ?_, ?_⟩
  · intro c hc
    rw [hdel] at hc
    simp at hc
    exact hc.2
  · intro m hm
    rw [hdel] at hm
    simp at hm
    exact hm.2
  · intro hdr
    cases hdr with
    | none => exact ⟨Or.inl rfl, rfl⟩
    | some u =>
      by_cases hu1 : u = 1
      · subst hu1
        exact ⟨Or.inl rfl, rfl⟩
      · have hempty : ownedChatRows (deleteChatA db (some uid) cid).2 cid u = [] := by
          rw [hdel]
          unfold ownedChatRows
          rw [List.filter_eq_nil_iff]
          intro c hc
          simp only [List.mem_filter, bne_iff_ne] at hc
          simp only [Bool.and_eq_true, beq_iff_eq, not_and]
          intro h _
          exact hc.2 h
        constructor
        · exact Or.inr (by simp [getChatMessagesA, hu1, hempty])
        · simp [getChatMessagesA, hu1, hempty]

/-- Witness for `deleteChat_cascades`: user 2 deletes their chat 5 in `dbMsgs`. -/
theorem deleteChat_cascades_witness :
    ((deleteChatA dbMsgs (some 2) 5).1.status = 200)
    ∧ (∀ c ∈ (deleteChatA dbMsgs (some 2) 5).2.chats, c.id ≠ 5)
    ∧ (∀ m ∈ (deleteChatA dbMsgs (some 2) 5).2.messages, m.chat_id ≠ 5)
    ∧ (∀ hdr : Option Nat,
        ((getChatMessagesA (deleteChatA dbMsgs (some 2) 5).2 hdr 5).status = 401
          ∨ (getChatMessagesA (deleteChatA dbMsgs (some 2) 5).2 hdr 5).status = 403)
        ∧ (getChatMessagesA (deleteChatA dbMsgs (some 2) 5).2 hdr 5).rows = none) :=
  deleteChat_cascades dbMsgs 2 5 (by decide) (by decide)

/-! ## Claim C8 -/

/-- C8: for every state, the chat list `GET /api/chats` returns to an
authenticated caller contains only chats owned by that caller — never a
guest-owned chat — and a guest-identified `POST /api/chat` only ever creates
chats owned by the guest sentinel, so chats created by guest requests never
appear in the chat list of any other user. -/
theorem guestChats_isolation :
    (∀ (db : DB) (uid : Nat) (rows : List ChatRow) (c : ChatRow), uid ≠ 1 →
      (getChatsA db (some uid)).rows = some rows → c ∈ rows →
      c.user_id = uid ∧ c.user_id ≠ 1)
    ∧ (∀ (db : DB) (msg : String) (provider : Nat → ProviderResult) (c : ChatRow),
        c ∈ (chatPostA db 1 msg provider).2.chats → c ∈ db.chats ∨ c.user_id = 1) := by
  constructor
  · intro db uid rows c hu hrows hc
    simp only [getChatsA] at hrows
    rw [if_neg hu] at hrows
    simp only [Option.some.injEq] at hrows
    subst hrows
    unfold chatsOfUserDesc at hc
    have hc' : c ∈ db.chats.filter (fun x => x.user_id == uid) :=
      (List.perm_insertionSort chatNewerFirst _).subset hc
    have := (List.mem_filter.mp hc').2
    simp at this
    exact ⟨this, by rw [this]; exact hu⟩
  · intro db msg provider c hc
    by_cases hm : msg = ""
    · left
      unfold chatPostA at hc
      rw [if_pos hm] at hc
      exact hc
    · have hchats : (chatPostA db 1 msg provider).2.chats
          = db.chats ++ [⟨db.nextChatId, 1, guestTitleA db.clock, db.clock⟩] := by
        unfold chatPostA
        rw [if_neg hm]
        split
        · simp [insertMessage, resolveChatA, insertChat]
        · split <;> simp [insertMessage, resolveChatA, insertChat]
      rw [hchats] at hc
      rcases List.mem_append.mp hc with h | h
      · exact Or.inl h
      · simp at h
        subst h
        exact Or.inr rfl

/-- Witness for `guestChats_isolation`: the chat list of user 2 in `dbAlice`, and
the chat created by a guest turn on `dbAlice`. -/
theorem guestChats_isolation_witness :
    ((⟨5, 2, "old chat", 10⟩ : ChatRow).user_id = 2
      ∧ (⟨5, 2, "old chat", 10⟩ : ChatRow).user_id ≠ 1)
    ∧ ((⟨6, 1, guestTitleA 11, 11⟩ : ChatRow) ∈ dbAlice.chats
        ∨ (⟨6, 1, guestTitleA 11, 11⟩ : ChatRow).user_id = 1) :=
  ⟨guestChats_isolation.1 dbAlice 2 [⟨5, 2, "old chat", 10⟩] ⟨5, 2, "old chat", 10⟩
      (by decide) (by decide) (by decide),
   guestChats_isolation.2 dbAlice "hi" (okProvider "X") ⟨6, 1, guestTitleA 11, 11⟩
      (by decide)⟩

/-! ## General correctness of the variant A messages query -/

/-- Variant A `GET /api/chats/:chatId`, in general: whenever the handler
returns a message list, that list holds exactly the messages whose chat id is
the requested one, sorted by creation time ascending. -/
theorem getChatMessagesA_exact_sorted (db : DB) (uid cid : Nat) (rows : List MessageRow)
    (h : (getChatMessagesA db (some uid) cid).rows = some rows) :
    (∀ m, m ∈ rows ↔ m ∈ db.messages ∧ m.chat_id = cid)
    ∧ List.Sorted msgOlderFirst rows := by
  simp only [getChatMessagesA] at h
  by_cases h1 : uid = 1
  · rw [if_pos h1] at h
    simp at h
  · rw [if_neg h1] at h
    by_cases h2 : ownedChatRows db cid uid = []
    · rw [if_pos h2] at h
      simp at h
    · rw [if_neg h2] at h
      simp only [Option.some.injEq] at h
      subst h
      constructor
      · intro m
        unfold messagesOfChatAsc
        rw [(List.perm_insertionSort msgOlderFirst _).mem_iff, List.mem_filter]
        simp
      · exact List.sorted_insertionSort msgOlderFirst _
